import Mathlib

/-!
# Verification of the matrix-iptv diagnostic scripts

Shallow embedding of the four Python diagnostic scripts of the repository
(`debug_dns.py`, `debug_redirect.py`, `debug_stream.py`,
`scripts/benchmark_playlists.py`) and proofs of the specified properties of
the sequential probe runner they implement.

The network is external nondeterminism: each embedding takes an oracle that
maps a request to its outcome (a response, or the exception the HTTP library
raises for it).  A response body handed to `json.loads` is modelled by its
parse outcome: either the JSON value the text decodes to, or a marker that
the text is not valid JSON (in which case `json.loads` raises).  Timeouts
are folded into the oracle: a response outcome means the data arrived within
the configured timeout, an exception outcome covers timeout expiry as well.
-/

/-- Python exception values that can reach the scripts' `except` handlers.
`urlError` covers `urllib.error.URLError` / `requests` connection errors
(DNS failure, connection refused or reset, TLS failure); `httpError` is
`urllib.error.HTTPError`, raised by `urlopen` for non-2xx statuses. -/
inductive PyExc where
  | urlError (msg : String)
  | httpError (code : Nat)
  | timeoutError
  | jsonDecodeError
  | typeError (msg : String)
  | attributeError (msg : String)
  | stopIteration
deriving DecidableEq, Repr

/-- Python `str(e)` for an exception, as interpolated into the printed
error line.  `str(StopIteration())` is the empty string. -/
def PyExc.str : PyExc → String
  | .urlError m => m
  | .httpError c => "HTTP Error " ++ toString c
  | .timeoutError => "timed out"
  | .jsonDecodeError => "Expecting value"
  | .typeError m => m
  | .attributeError m => m
  | .stopIteration => ""

/-- Values `json.loads` can return.  Numbers are modelled as integers (no
claim depends on fractional values); an object is its final key/value list,
keys unique as in a Python `dict`. -/
inductive Json where
  | null
  | bool (b : Bool)
  | num (n : Int)
  | str (s : String)
  | arr (xs : List Json)
  | obj (kvs : List (String × Json))

/-- Whether a JSON value is an array (`list` after `json.loads`). -/
def Json.isArr : Json → Bool
  | .arr _ => true
  | _ => false

mutual

/-- Python `repr()` of a JSON value (used for elements inside container
renderings). -/
def Json.pyRepr : Json → String
  | .null => "None"
  | .bool true => "True"
  | .bool false => "False"
  | .num n => toString n
  | .str s => "\x27" ++ s ++ "\x27"
  | .arr xs => "[" ++ Json.pyReprList xs ++ "]"
  | .obj kvs => "\x7b" ++ Json.pyReprObj kvs ++ "\x7d"

/-- Comma-separated `repr`s of list elements. -/
def Json.pyReprList : List Json → String
  | [] => ""
  | [x] => x.pyRepr
  | x :: y :: rest => x.pyRepr ++ ", " ++ Json.pyReprList (y :: rest)

/-- Comma-separated `repr`s of dict entries. -/
def Json.pyReprObj : List (String × Json) → String
  | [] => ""
  | [(k, v)] => "\x27" ++ k ++ "\x27: " ++ v.pyRepr
  | (k, v) :: p :: rest =>
      "\x27" ++ k ++ "\x27: " ++ v.pyRepr ++ ", " ++ Json.pyReprObj (p :: rest)

end

/-- Python `str()` of a JSON value, as interpolated by an f-string:
identical to `repr()` except that a string is rendered without quotes. -/
def Json.pyStr : Json → String
  | .str s => s
  | j => j.pyRepr

/-- Python `len()` on a JSON value: defined for strings, lists and dicts,
`TypeError` otherwise. -/
def pyLen : Json → Except PyExc Nat
  | .str s => .ok s.length
  | .arr xs => .ok xs.length
  | .obj kvs => .ok kvs.length
  | _ => .error (.typeError "object has no len()")

/-- Iterating a JSON value (`for s in streams`): a list yields its elements,
a dict its keys, a string its characters; anything else raises `TypeError`. -/
def pyIter : Json → Except PyExc (List Json)
  | .arr xs => .ok xs
  | .obj kvs => .ok (kvs.map (fun p => Json.str p.1))
  | .str s => .ok (s.data.map (fun c => Json.str ⟨[c]⟩))
  | _ => .error (.typeError "object is not iterable")

/-- First value bound to key `k`, if any (keys of a parsed object are
unique, so first and last occurrence agree). -/
def lookupKey (kvs : List (String × Json)) (k : String) : Option Json :=
  (kvs.find? (fun p => p.1 == k)).map (fun p => p.2)

/-- Python `s.get(k, d)` : works on dicts, `AttributeError` otherwise. -/
def pyGet (s : Json) (k : String) (d : Json) : Except PyExc Json :=
  match s with
  | .obj kvs => .ok ((lookupKey kvs k).getD d)
  | _ => .error (.attributeError "object has no attribute get")

/-- Total variant of `s.get(k, d)` for stating results (only used in
theorem statements; `pyGet` is what the code runs). -/
def pyGetD (s : Json) (k : String) (d : Json) : Json :=
  match s with
  | .obj kvs => (lookupKey kvs k).getD d
  | _ => d

/-- Whether `needle` starts the character list `hay`. -/
def startsWithChars : List Char → List Char → Bool
  | [], _ => true
  | _ :: _, [] => false
  | a :: as, b :: bs => a == b && startsWithChars as bs

/-- Whether `needle` occurs contiguously in the character list `hay`
(an empty needle always occurs). -/
def hasSubChars (needle : List Char) : List Char → Bool
  | [] => needle.isEmpty
  | c :: rest => startsWithChars needle (c :: rest) || hasSubChars needle rest

/-- Substring test (`needle in hay` for Python strings). -/
def strContains (hay needle : String) : Bool :=
  hasSubChars needle.data hay.data

/-- Python string equality against a JSON value: a `str` compares by value,
any other type is simply unequal (no exception). -/
def jsonEqStr (needle : String) : Json → Bool
  | .str t => needle == t
  | _ => false

/-- Python `needle in container` for a string needle: substring test on a
string, membership on a list, key test on a dict, `TypeError` on
non-containers (e.g. `"MSNBC" in 0` raises). -/
def pyIn (needle : String) : Json → Except PyExc Bool
  | .str s => .ok (strContains s needle)
  | .arr xs => .ok (xs.any (jsonEqStr needle))
  | .obj kvs => .ok (kvs.any (fun p => p.1 == needle))
  | _ => .error (.typeError "argument is not iterable")

/-! ## scripts/benchmark_playlists.py -/

/-- One entry of the hard-coded `accounts` list. -/
structure Account where
  name : String
  url : String
  user : String
  pass_ : String
deriving DecidableEq, Repr

/-- The script's hard-coded account list. -/
def accounts : List Account :=
  [ { name := "Strong 8K", url := "http://pledge78502.cdn-akm.me:80",
      user := "7c34d33c9e21", pass_ := "037dacb169" },
    { name := "Trex", url := "http://line.offcial-trex.pro",
      user := "3a6aae52fb", pass_ := "39c165888139" },
    { name := "Strong8k2-PC", url := "http://zfruvync.duperab.xyz",
      user := "PE1S9S8U", pass_ := "11EZZUMW" },
    { name := "Mega OTT 1", url := "http://line.4smart.in",
      user := "45Z88W6", pass_ := "Z7PHTX3" } ]

/-- Common part of the two `player_api.php` URLs, up to the action name. -/
def apiBase (acc : Account) : String :=
  acc.url ++ "/player_api.php?username=" ++ acc.user ++ "&password="
    ++ acc.pass_ ++ "&action="

/-- `cat_url` — the stage-1 (`get_live_categories`) request URL. -/
def catUrl (acc : Account) : String := apiBase acc ++ "get_live_categories"

/-- `streams_url` — the stage-2 (`get_live_streams`) request URL. -/
def streamsUrl (acc : Account) : String := apiBase acc ++ "get_live_streams"

/-- `play_url` — the derived playable link for a `stream_id` value, via the
f-string `{url}/live/{user}/{pass}/{stream_id}.ts`. -/
def playUrl (acc : Account) (streamId : Json) : String :=
  acc.url ++ "/live/" ++ acc.user ++ "/" ++ acc.pass_ ++ "/"
    ++ streamId.pyStr ++ ".ts"

/-- Body of a 2xx response, as seen by `json.loads(resp.read().decode())`:
either the JSON value the text parses to, or text that is not valid JSON. -/
inductive HttpBody where
  | jsonText (j : Json)
  | rawText

/-- `json.loads` on a response body. -/
def jsonLoads : HttpBody → Except PyExc Json
  | .jsonText j => .ok j
  | .rawText => .error .jsonDecodeError

/-- Network oracle for `urllib.request.urlopen(url, timeout).read().decode()`:
`.ok` is a 2xx response whose body was read and decoded within the timeout;
`.error` is the exception raised (`URLError`, timeout, or `HTTPError` for a
non-2xx status, since `urlopen` raises on those). -/
def Net := String → Except PyExc HttpBody

/-- The printed error line of the benchmark's `except` branch
(`print(f"  X Error: {e}")`, marker glyph omitted). -/
def errLine (e : PyExc) : String := "Error: " ++ e.str

/-- Observable outcome of one iteration of the benchmark's account loop:
the URLs requested (in order) and what the iteration printed — category
count, stream count, MSNBC match count, derived play links, and the error
line if the `except` branch ran. -/
structure AccountResult where
  requests : List String := []
  catCount : Option Nat := none
  streamCount : Option Nat := none
  msnbcCount : Option Nat := none
  playUrls : List String := []
  error : Option String := none
deriving DecidableEq, Repr

/-- The test of the list comprehension
`[s for s in streams if "MSNBC" in s.get("name", "")]` on one element. -/
def msnbcTest (s : Json) : Except PyExc Bool := do
  let nm ← pyGet s "name" (Json.str "")
  pyIn "MSNBC" nm

/-- The comprehension itself: elements are tested in order and the first
raising element aborts the whole comprehension. -/
def filterMsnbc : List Json → Except PyExc (List Json)
  | [] => .ok []
  | s :: rest => do
    let b ← msnbcTest s
    let tail ← filterMsnbc rest
    .ok (if b then s :: tail else tail)

/-- The `for s in msnbc[:3]` loop body: `s.get("stream_id")`,
`s.get("name")` and the interpolated play link (the loop prints the id,
name and link; we record the link strings). -/
def mkPlayUrls (acc : Account) : List Json → Except PyExc (List String)
  | [] => .ok []
  | s :: rest => do
    let sid ← pyGet s "stream_id" Json.null
    let _name ← pyGet s "name" Json.null
    let tail ← mkPlayUrls acc rest
    .ok (playUrl acc sid :: tail)

/-- One iteration of the account loop, transcribing the `try` block: stage 1
(`urlopen` on `cat_url`, `json.loads`, `len(cats)` printed), then stage 2
(`urlopen` on `streams_url`, `json.loads`, `len(streams)` printed, the
MSNBC comprehension, up to 3 play links).  Any exception falls through to
the single `except` handler, which records the printed error line; the
observables produced before the exception remain recorded. -/
def processAccount (net : Net) (acc : Account) : AccountResult :=
  let u1 := catUrl acc
  match net u1 with
  | .error e => { requests := [u1], error := some (errLine e) }
  | .ok body1 =>
    match jsonLoads body1 with
    | .error e => { requests := [u1], error := some (errLine e) }
    | .ok cats =>
      match pyLen cats with
      | .error e => { requests := [u1], error := some (errLine e) }
      | .ok nCats =>
        let u2 := streamsUrl acc
        match net u2 with
        | .error e =>
            { requests := [u1, u2], catCount := some nCats,
              error := some (errLine e) }
        | .ok body2 =>
          match jsonLoads body2 with
          | .error e =>
              { requests := [u1, u2], catCount := some nCats,
                error := some (errLine e) }
          | .ok streams =>
            match pyLen streams with
            | .error e =>
                { requests := [u1, u2], catCount := some nCats,
                  error := some (errLine e) }
            | .ok nStreams =>
              match pyIter streams with
              | .error e =>
                  { requests := [u1, u2], catCount := some nCats,
                    streamCount := some nStreams, error := some (errLine e) }
              | .ok entries =>
                match filterMsnbc entries with
                | .error e =>
                    { requests := [u1, u2], catCount := some nCats,
                      streamCount := some nStreams,
                      error := some (errLine e) }
                | .ok msnbc =>
                  match mkPlayUrls acc (msnbc.take 3) with
                  | .error e =>
                      { requests := [u1, u2], catCount := some nCats,
                        streamCount := some nStreams,
                        msnbcCount := some msnbc.length,
                        error := some (errLine e) }
                  | .ok urls =>
                      { requests := [u1, u2], catCount := some nCats,
                        streamCount := some nStreams,
                        msnbcCount := some msnbc.length,
                        playUrls := urls, error := none }

/-- The benchmark's top-level `for acc in accounts` loop: one result per
account, in input order. -/
def runBenchmark (net : Net) (accs : List Account) : List AccountResult :=
  accs.map (processAccount net)

/-! ## debug_stream.py -/

/-- Outcome of `requests.get(url, headers=headers, stream=True, timeout=10)`:
either the exception the call raises, or a response (status, headers, and
the byte stream the server delivers for the body).  Bytes are `Nat`s; no
claim depends on their range. -/
inductive StreamOutcome where
  | exc (e : PyExc)
  | resp (status : Nat) (headers : List (String × String)) (body : List Nat)

/-- `next(r.iter_content(chunk_size=n))`: the first chunk holds the first
(at most) `n` bytes of the body; on a body with no bytes the generator is
exhausted at once and `next` raises `StopIteration`. -/
def iterContentFirst (n : Nat) (body : List Nat) : Except PyExc (List Nat) :=
  if body = [] then .error .stopIteration else .ok (body.take n)

/-- What one run of `debug_stream.py` prints: status and headers (printed
as soon as the response arrives), the sampled chunk and the SUCCESS line,
the FAILURE status line for non-200, or the EXCEPTION line. -/
structure StreamResult where
  statusCode : Option Nat := none
  headers : Option (List (String × String)) := none
  chunk : Option (List Nat) := none
  success : Bool := false
  failureStatus : Option Nat := none
  error : Option String := none
deriving DecidableEq, Repr

/-- The script's `try` block with its `except` handler: print status and
headers; if the status is 200, read the first 64-byte chunk and report
success iff it is non-empty; otherwise print the FAILURE line.  Any
exception reaches the single handler, which prints `EXCEPTION: {e}` —
observables printed before the exception remain recorded. -/
def debugStream : StreamOutcome → StreamResult
  | .exc e => { error := some ("EXCEPTION: " ++ e.str) }
  | .resp st hdrs body =>
    if st = 200 then
      match iterContentFirst 64 body with
      | .error e =>
          { statusCode := some st, headers := some hdrs,
            error := some ("EXCEPTION: " ++ e.str) }
      | .ok c =>
          { statusCode := some st, headers := some hdrs, chunk := some c,
            success := decide (0 < c.length) }
    else
      { statusCode := some st, headers := some hdrs,
        failureStatus := some st }

/-! ## debug_redirect.py -/

/-- HTTP method of a probe request. -/
inductive Method where
  | get
  | head
deriving DecidableEq, Repr

/-- A `requests` call with its keyword arguments, as data. -/
structure HttpRequest where
  method : Method
  url : String
  headers : List (String × String)
  allowRedirects : Bool
  timeout : Nat
deriving DecidableEq, Repr

/-- The script's hard-coded browser `User-Agent` header. -/
def browserHeaders : List (String × String) :=
  [("User-Agent",
    "Mozilla/5.0 (Windows NT 10.0; Win64; x64) AppleWebKit/537.36 (KHTML, like Gecko) Chrome/120.0.0.0 Safari/537.36")]

/-- `requests.head(u, headers=headers, allow_redirects=False, timeout=5)`
as issued by `check`. -/
def checkRequest (u : String) : HttpRequest :=
  { method := .head, url := u, headers := browserHeaders,
    allowRedirects := false, timeout := 5 }

/-- The two hard-coded target URLs. -/
def urlTs : String :=
  "http://zfruvync.duperab.xyz/live/PE1S9S8U/11EZZUMW/53504.ts"

/-- The second hard-coded target URL. -/
def urlM3u8 : String :=
  "http://zfruvync.duperab.xyz/live/PE1S9S8U/11EZZUMW/53504.m3u8"

/-- ASCII lower-casing of one character (header names are ASCII). -/
def lowerChar (c : Char) : Char :=
  if 65 ≤ c.toNat ∧ c.toNat ≤ 90 then Char.ofNat (c.toNat + 32) else c

/-- Case-insensitive header-name comparison. -/
def ciKeyEq (a b : String) : Bool :=
  a.data.map lowerChar == b.data.map lowerChar

/-- Case-insensitive header lookup: `requests` stores response headers in a
`CaseInsensitiveDict`, so `r.headers["Location"]` matches a `location:`
header too. -/
def ciLookup (k : String) : List (String × String) → Option String
  | [] => none
  | (k2, v) :: rest =>
      if ciKeyEq k2 k then some v else ciLookup k rest

/-- Oracle for one HEAD probe: either the exception `requests.head`
raises, or the response's status code and header list. -/
def RedirectNet := HttpRequest → Except PyExc (Nat × List (String × String))

/-- What one `check(name, u)` call prints: the status line, the `Location`
value or the "No Location header" line, or the error line. -/
structure CheckResult where
  statusCode : Option Nat := none
  location : Option String := none
  noLocation : Bool := false
  error : Option String := none
deriving DecidableEq, Repr

/-- `check`: issue the HEAD request (redirects disabled), print the status,
then the `Location` header if present; any exception is caught and printed
as `Error: {e}`. -/
def check (net : RedirectNet) (u : String) : CheckResult :=
  match net (checkRequest u) with
  | .error e => { error := some ("Error: " ++ e.str) }
  | .ok (st, hdrs) =>
    match ciLookup "Location" hdrs with
    | some loc => { statusCode := some st, location := some loc }
    | none => { statusCode := some st, noLocation := true }

/-- The script's top level: `check("TS", url_ts)` then
`check("M3U8", url_m3u8)`, sequentially, results in call order. -/
def redirectMain (net : RedirectNet) : List CheckResult :=
  [check net urlTs, check net urlM3u8]

/-! ## debug_dns.py -/

/-- The hard-coded domain probed by the DoH lookup. -/
def dohDomain : String := "8884152.lbt4.xyz"

/-- The DoH request URL, from `f"https://dns.google/resolve?name={domain}"`. -/
def dohUrl : String := "https://dns.google/resolve?name=" ++ dohDomain

/-- One run of `debug_dns.py`: `requests.get(doh_url, timeout=5)` then
`r.json()`; the parsed JSON is printed on success, the exception otherwise.
The oracle is the outcome of `requests.get` followed by `r.json()` on its
body (`r.json()` raises on a non-JSON body, which the handler catches). -/
def debugDns (net : Except PyExc HttpBody) : Option Json × Option String :=
  match net with
  | .error e => (none, some e.str)
  | .ok body =>
    match jsonLoads body with
    | .error e => (none, some e.str)
    | .ok j => (some j, none)

/-! ## Helper lemmas -/

@[simp] lemma ebind_error {α β : Type} (e : PyExc) (f : α → Except PyExc β) :
    (Except.error e >>= f : Except PyExc β) = Except.error e := rfl

@[simp] lemma ebind_ok {α β : Type} (a : α) (f : α → Except PyExc β) :
    (Except.ok a >>= f : Except PyExc β) = f a := rfl

lemma pyLen_arr (xs : List Json) : pyLen (Json.arr xs) = .ok xs.length := rfl

lemma pyIter_arr (xs : List Json) : pyIter (Json.arr xs) = .ok xs := rfl

lemma string_append_cancel (p a b : String) (h : p ++ a = p ++ b) : a = b := by
  have h2 := congrArg String.data h
  rw [String.data_append, String.data_append] at h2
  exact String.ext (List.append_cancel_left h2)

lemma catUrl_ne_streamsUrl (acc : Account) : catUrl acc ≠ streamsUrl acc := by
  intro h
  have h2 := string_append_cancel (apiBase acc) _ _ h
  exact absurd h2 (by decide)

lemma streamsUrl_ne_catUrl (acc : Account) : streamsUrl acc ≠ catUrl acc :=
  Ne.symm (catUrl_ne_streamsUrl acc)

lemma append_ne_empty (p s : String) (hp : p.data ≠ []) : p ++ s ≠ "" := by
  intro h
  have h2 := congrArg String.data h
  rw [String.data_append] at h2
  exact hp (List.append_eq_nil.mp h2).1

lemma errLine_ne_empty (e : PyExc) : errLine e ≠ "" :=
  append_ne_empty "Error: " e.str (by decide)

lemma exceptionLine_ne_empty (s : String) : "EXCEPTION: " ++ s ≠ "" :=
  append_ne_empty "EXCEPTION: " s (by decide)

/-- The per-account request log is `[cat_url]` (stage 1 only) or
`[cat_url, streams_url]` (both stages), always in that order. -/
lemma paRequests (net : Net) (acc : Account) :
    (processAccount net acc).requests = [catUrl acc] ∨
      (processAccount net acc).requests = [catUrl acc, streamsUrl acc] := by
  simp only [processAccount]
  repeat' split
  all_goals first | (left; rfl) | (right; rfl)

/-- The per-account error field is `none` or the handler's printed line. -/
lemma paError (net : Net) (acc : Account) :
    (processAccount net acc).error = none ∨
      ∃ e, (processAccount net acc).error = some (errLine e) := by
  simp only [processAccount]
  repeat' split
  all_goals first | (left; rfl) | (right; exact ⟨_, rfl⟩)

lemma runBenchmark_getElem (net : Net) (pre : List Account) (acc : Account)
    (post : List Account) :
    (runBenchmark net (pre ++ acc :: post))[pre.length]? =
      some (processAccount net acc) := by
  induction pre with
  | nil => simp [runBenchmark]
  | cons a pre ih => simpa [runBenchmark] using ih

lemma take64_eq_nil (b : List Nat) (h : b.take 64 = []) : b = [] := by
  have h2 := congrArg List.length h
  rw [List.length_take] at h2
  simpa using h2

/-- The liveness probe's result depends on the response body only through
its first 64 bytes. -/
lemma debugStream_take64 (st : Nat) (hdrs : List (String × String))
    (b1 b2 : List Nat) (h : b1.take 64 = b2.take 64) :
    debugStream (.resp st hdrs b1) = debugStream (.resp st hdrs b2) := by
  by_cases hb1 : b1 = []
  · have hb2 : b2 = [] := by
      apply take64_eq_nil
      rw [← h, hb1]
      rfl
    rw [hb1, hb2]
  · have hb2 : b2 ≠ [] := by
      intro he
      apply hb1
      apply take64_eq_nil
      rw [h, he]
      rfl
    simp [debugStream, iterContentFirst, hb1, hb2, h]

/-- A fixture account for concrete evaluations. -/
def tAcc : Account :=
  { name := "T", url := "http://h.example", user := "u1", pass_ := "p1" }

/-! ## Claims -/

/-- C1: for every list of probe targets and every oracle behavior, the
probe runner lets no exception escape — the run completes with one result
per target, and each per-target failure is recorded in that target's
result as the handler's printed message (non-empty); the same holds for
the single-target stream probe. -/
theorem runner_no_exception_escapes (net : Net) (acc : Account)
    (accs : List Account) (out : StreamOutcome) :
    (runBenchmark net accs).length = accs.length ∧
    ((processAccount net acc).error = none ∨
      ∃ e, (processAccount net acc).error = some (errLine e) ∧
        errLine e ≠ "") ∧
    ((debugStream out).error = none ∨
      ∃ s, (debugStream out).error = some ("EXCEPTION: " ++ s) ∧
        "EXCEPTION: " ++ s ≠ "") := by
  refine ⟨by simp [runBenchmark], ?_, ?_⟩
  · rcases paError net acc with h | ⟨e, h⟩
    · exact .inl h
    · exact .inr ⟨e, h, errLine_ne_empty e⟩
  · cases out with
    | exc e => exact .inr ⟨e.str, rfl, exceptionLine_ne_empty _⟩
    | resp st hdrs body =>
      by_cases hst : st = 200
      · subst hst
        cases hic : iterContentFirst 64 body with
        | error e =>
            exact .inr ⟨e.str, by simp [debugStream, hic],
              exceptionLine_ne_empty _⟩
        | ok c => left; simp [debugStream, hic]
      · left; simp [debugStream, hst]

/-- C2: the probe runner produces exactly one result per target: the
output has the input's length, and the i-th result is the probe of the
i-th target (same order). -/
theorem runner_one_result_per_target (net : Net) (accs : List Account) :
    (runBenchmark net accs).length = accs.length ∧
    ∀ i : Nat,
      (runBenchmark net accs)[i]? = (accs[i]?).map (processAccount net) := by
  refine ⟨by simp [runBenchmark], fun i => ?_⟩
  simp [runBenchmark]

/-- C4: if the liveness endpoint returns HTTP 200 and delivers at least one
byte, the result records status 200 and a non-empty sampled chunk of at
most 64 bytes, and the result depends on the body only through its first
64 bytes (the full payload is never read). -/
theorem liveness_200_nonempty_sample (hdrs : List (String × String))
    (body : List Nat) (hb : body ≠ []) :
    (debugStream (.resp 200 hdrs body)).statusCode = some 200 ∧
    (debugStream (.resp 200 hdrs body)).chunk = some (body.take 64) ∧
    body.take 64 ≠ [] ∧
    (body.take 64).length ≤ 64 ∧
    (debugStream (.resp 200 hdrs body)).success = true ∧
    (∀ body2, body.take 64 = body2.take 64 →
      debugStream (.resp 200 hdrs body2) = debugStream (.resp 200 hdrs body)) := by
  have ht : body.take 64 ≠ [] := fun h => hb (take64_eq_nil body h)
  refine ⟨?_, ?_, ht, ?_, ?_, fun body2 h2 => debugStream_take64 _ _ _ _ h2.symm⟩
  · simp [debugStream, iterContentFirst, hb]
  · simp [debugStream, iterContentFirst, hb]
  · rw [List.length_take]
    exact min_le_left _ _
  · simp [debugStream, iterContentFirst, hb, List.length_pos, ht]

/-- C4 witness: a concrete 200 response delivering two bytes. -/
theorem liveness_200_nonempty_sample_witness :
    (debugStream (.resp 200 [("Content-Type", "video/mp2t")] [71, 64])).statusCode
        = some 200 ∧
    (debugStream (.resp 200 [("Content-Type", "video/mp2t")] [71, 64])).chunk
        = some [71, 64] ∧
    (debugStream (.resp 200 [("Content-Type", "video/mp2t")] [71, 64])).success
        = true := by
  have h := liveness_200_nonempty_sample [("Content-Type", "video/mp2t")]
    [71, 64] (by decide)
  exact ⟨h.1, h.2.1, h.2.2.2.2.1⟩

/-- C10: a 200 response with a zero-byte body makes `next(iter_content(...))`
raise `StopIteration`, which the generic handler catches: the probe reports
an error result (not a success, and no uncaught crash), with the already
printed status and headers recorded. -/
theorem empty_body_reports_error_result (hdrs : List (String × String)) :
    iterContentFirst 64 [] = .error .stopIteration ∧
    PyExc.str .stopIteration = "" ∧
    debugStream (.resp 200 hdrs []) =
      { statusCode := some 200, headers := some hdrs, chunk := none,
        success := false, failureStatus := none,
        error := some ("EXCEPTION: " ++ PyExc.str .stopIteration) } :=
  ⟨rfl, rfl, rfl⟩

/-- C5: the HEAD probe is issued with redirect-following disabled, and a
302 response carrying a `Location` header yields a result with status 302
that includes that `Location` value. -/
theorem head_probe_redirects_disabled (u : String) :
    (checkRequest u).method = .head ∧
    (checkRequest u).allowRedirects = false ∧
    (∀ net : RedirectNet, redirectMain net = [check net urlTs, check net urlM3u8]) ∧
    (∀ (net : RedirectNet) (hdrs : List (String × String)) (loc : String),
      net (checkRequest u) = .ok (302, hdrs) →
      ciLookup "Location" hdrs = some loc →
      (check net u).statusCode = some 302 ∧ (check net u).location = some loc) := by
  refine ⟨rfl, rfl, fun net => rfl, fun net hdrs loc h1 h2 => ?_⟩
  constructor <;> simp [check, h1, h2]

/-- C5 witness: a concrete 302 response with a `Location` header. -/
theorem head_probe_redirects_disabled_witness :
    (check (fun _ => .ok (302, [("Location", "http://example.org/next.ts")])) urlTs).statusCode
        = some 302 ∧
    (check (fun _ => .ok (302, [("Location", "http://example.org/next.ts")])) urlTs).location
        = some "http://example.org/next.ts" :=
  (head_probe_redirects_disabled urlTs).2.2.2
    (fun _ => .ok (302, [("Location", "http://example.org/next.ts")])) _ _ rfl
    (by decide)

/-- C6 counterexample: the claim says a failing probe's result always has
`statusCode` and `headers` absent, but a 200 response with an empty body
fails (StopIteration is caught and an error is recorded) while the result
keeps `statusCode = 200` and the headers. -/
theorem failing_probe_with_status_present :
    (debugStream (.resp 200 [] [])).error = some "EXCEPTION: " ∧
    (debugStream (.resp 200 [] [])).statusCode = some 200 ∧
    (debugStream (.resp 200 [] [])).headers = some [] :=
  ⟨rfl, rfl, rfl⟩

/-- C6 amended: for every target whose network request itself fails (the
request call raises: DNS failure, connection refused/reset, timeout, TLS
failure), the result has `statusCode` and `headers` absent and a non-empty
error description; a failure after the response arrived (while sampling
the body) records the error but keeps the already-recorded status and
headers. -/
theorem request_failure_absent_status (e : PyExc) (net : Net) (acc : Account) :
    ((debugStream (.exc e)).statusCode = none ∧
     (debugStream (.exc e)).headers = none ∧
     (debugStream (.exc e)).error = some ("EXCEPTION: " ++ e.str) ∧
     "EXCEPTION: " ++ e.str ≠ "") ∧
    (net (catUrl acc) = .error e →
      (processAccount net acc).catCount = none ∧
      (processAccount net acc).error = some (errLine e) ∧ errLine e ≠ "") := by
  refine ⟨⟨rfl, rfl, rfl, exceptionLine_ne_empty _⟩, fun h => ?_⟩
  refine ⟨?_, ?_, errLine_ne_empty e⟩ <;> simp [processAccount, h]

/-- C6 witness: a concrete DNS-failure exception on the benchmark's first
request. -/
theorem request_failure_absent_status_witness :
    (processAccount (fun _ => .error (.urlError "Name or service not known")) tAcc).catCount
        = none ∧
    (processAccount (fun _ => .error (.urlError "Name or service not known")) tAcc).error
        = some (errLine (.urlError "Name or service not known")) ∧
    errLine (.urlError "Name or service not known") ≠ "" :=
  (request_failure_absent_status (.urlError "Name or service not known")
    (fun _ => .error (.urlError "Name or service not known")) tAcc).2 rfl

lemma msnbcTest_ok_obj (s : Json) (b : Bool) (h : msnbcTest s = .ok b) :
    ∃ kvs, s = Json.obj kvs := by
  cases s <;> simp [msnbcTest, pyGet] at h ⊢

/-- The successful comprehension keeps an ordered sublist of the input,
every kept element having passed the MSNBC test. -/
lemma filterMsnbc_ok (l ms : List Json) (h : filterMsnbc l = .ok ms) :
    ms.Sublist l ∧ ∀ s ∈ ms, msnbcTest s = .ok true := by
  induction l generalizing ms with
  | nil =>
    simp [filterMsnbc] at h
    subst h
    exact ⟨List.Sublist.slnil, by simp⟩
  | cons s rest ih =>
    cases hb : msnbcTest s with
    | error e => simp [filterMsnbc, hb] at h
    | ok b =>
      cases ht : filterMsnbc rest with
      | error e => simp [filterMsnbc, hb, ht] at h
      | ok tail =>
        have h2 : (if b then s :: tail else tail) = ms := by
          simpa [filterMsnbc, hb, ht] using h
        rcases ih tail ht with ⟨hsub, hmem⟩
        cases b with
        | true =>
          subst h2
          refine ⟨List.Sublist.cons₂ s hsub, ?_⟩
          intro x hx
          rcases List.mem_cons.mp hx with rfl | hx2
          · exact hb
          · exact hmem x hx2
        | false =>
          subst h2
          exact ⟨List.Sublist.cons s hsub, hmem⟩

/-- On a list of dicts the play-link loop cannot raise and produces one
interpolated link per entry. -/
lemma mkPlayUrls_objs (acc : Account) (l : List Json)
    (h : ∀ s ∈ l, ∃ kvs, s = Json.obj kvs) :
    mkPlayUrls acc l =
      .ok (l.map (fun s => playUrl acc (pyGetD s "stream_id" Json.null))) := by
  induction l with
  | nil => rfl
  | cons s rest ih =>
    rcases h s (List.mem_cons_self s rest) with ⟨kvs, rfl⟩
    have ih2 := ih (fun x hx => h x (List.mem_cons_of_mem _ hx))
    simp [mkPlayUrls, pyGet, pyGetD, ih2]

/-- C3 amended: the stage-2 (get_live_streams) request is issued if and
only if stage 1 succeeds (2xx, body read) and its body decodes as a JSON
value on which `len()` is defined — an array, object, or string; a stage-1
parse failure or non-2xx status is recorded as the account's error and no
stage-2 request is issued. -/
theorem stage2_iff_stage1_len_ok (net : Net) (acc : Account) :
    (streamsUrl acc ∈ (processAccount net acc).requests ↔
      ∃ j n, net (catUrl acc) = .ok (.jsonText j) ∧ pyLen j = .ok n) ∧
    (net (catUrl acc) = .ok .rawText →
      (processAccount net acc).error = some (errLine .jsonDecodeError) ∧
      streamsUrl acc ∉ (processAccount net acc).requests) ∧
    (∀ c : Nat, net (catUrl acc) = .error (.httpError c) →
      (processAccount net acc).error = some (errLine (.httpError c)) ∧
      streamsUrl acc ∉ (processAccount net acc).requests) := by
  refine ⟨?_, fun h => ?_, fun c h => ?_⟩
  · cases h1 : net (catUrl acc) with
    | error e => simp [processAccount, h1, streamsUrl_ne_catUrl acc]
    | ok body1 =>
      cases body1 with
      | rawText => simp [processAccount, h1, jsonLoads, streamsUrl_ne_catUrl acc]
      | jsonText j =>
        cases h2 : pyLen j with
        | error e =>
            simp [processAccount, h1, jsonLoads, h2, streamsUrl_ne_catUrl acc]
        | ok n =>
          simp only [processAccount, h1, jsonLoads, h2]
          repeat' split
          all_goals simp [h2]
  · simp [processAccount, h, jsonLoads, streamsUrl_ne_catUrl acc]
  · simp [processAccount, h, streamsUrl_ne_catUrl acc]

/-- An oracle whose stage-1 body is the JSON object `\x7b\x7d` (not an
array). -/
def wNetObj : Net := fun u =>
  if u = catUrl tAcc then .ok (.jsonText (.obj []))
  else .ok (.jsonText (.arr []))

/-- C3 counterexample: stage 1 succeeds with a JSON **object** body — not
an array — yet the stage-2 request is still issued (and the account even
completes without error), refuting "if and only if ... decodes as a JSON
array". -/
theorem stage2_issued_for_non_array_body :
    wNetObj (catUrl tAcc) = .ok (.jsonText (.obj [])) ∧
    Json.isArr (.obj []) = false ∧
    streamsUrl tAcc ∈ (processAccount wNetObj tAcc).requests ∧
    (processAccount wNetObj tAcc).error = none := by
  refine ⟨?_, rfl, ?_, ?_⟩
  · unfold wNetObj
    rw [if_pos rfl]
  · decide
  · decide

/-- An oracle answering stage 1 with an empty JSON array and failing any
other request. -/
def wNetArr : Net := fun u =>
  if u = catUrl tAcc then .ok (.jsonText (.arr [])) else .error .timeoutError

/-- C3 witness: with an array-valued stage-1 body the stage-2 request is
issued. -/
theorem stage2_iff_stage1_len_ok_witness :
    streamsUrl tAcc ∈ (processAccount wNetArr tAcc).requests :=
  (stage2_iff_stage1_len_ok wNetArr tAcc).1.mpr
    ⟨.arr [], 0, by unfold wNetArr; rw [if_pos rfl], rfl⟩

/-- C7: one account's outcome never affects another — the result at any
position of the run equals the probe of the account at that position,
whatever the surrounding accounts do — and each account is attempted
exactly once with no retry: its stage-1 URL is requested exactly once and
its stage-2 URL at most once. -/
theorem account_failure_isolated_no_retry (net : Net) (pre : List Account)
    (acc : Account) (post : List Account) :
    (runBenchmark net (pre ++ acc :: post))[pre.length]? =
      some (processAccount net acc) ∧
    catUrl acc ∈ (processAccount net acc).requests ∧
    (processAccount net acc).requests.count (catUrl acc) = 1 ∧
    (processAccount net acc).requests.count (streamsUrl acc) ≤ 1 := by
  refine ⟨runBenchmark_getElem net pre acc post, ?_, ?_, ?_⟩ <;>
    rcases paRequests net acc with h | h <;> rw [h] <;>
    simp [List.count_cons, List.count_nil, catUrl_ne_streamsUrl acc,
      streamsUrl_ne_catUrl acc]

/-- C8: after a successful stage 2 whose body decodes as a JSON array, the
stream list is filtered by the MSNBC substring test on each entry's name,
and the play links are the first at-most-3 matching entries, in list
order, each interpolated as base/live/user/pass/stream_id.ts. -/
theorem msnbc_filter_play_urls (net : Net) (acc : Account) (c : Json)
    (entries ms : List Json) (n : Nat)
    (h1 : net (catUrl acc) = .ok (.jsonText c))
    (hn : pyLen c = .ok n)
    (h2 : net (streamsUrl acc) = .ok (.jsonText (.arr entries)))
    (h3 : filterMsnbc entries = .ok ms) :
    (processAccount net acc).error = none ∧
    (processAccount net acc).playUrls =
      (ms.take 3).map (fun s =>
        acc.url ++ "/live/" ++ acc.user ++ "/" ++ acc.pass_ ++ "/"
          ++ (pyGetD s "stream_id" Json.null).pyStr ++ ".ts") ∧
    (processAccount net acc).playUrls.length ≤ 3 ∧
    ms.Sublist entries ∧
    ∀ s ∈ ms, msnbcTest s = .ok true := by
  have hfo := filterMsnbc_ok entries ms h3
  have hobjs : ∀ s ∈ ms.take 3, ∃ kvs, s = Json.obj kvs := fun s hs =>
    msnbcTest_ok_obj s true (hfo.2 s (List.take_subset _ _ hs))
  have hmk := mkPlayUrls_objs acc (ms.take 3) hobjs
  have hpa : (processAccount net acc).error = none ∧
      (processAccount net acc).playUrls =
        (ms.take 3).map (fun s => playUrl acc (pyGetD s "stream_id" Json.null)) := by
    constructor <;>
      simp [processAccount, h1, jsonLoads, hn, h2, pyLen_arr, pyIter_arr,
        h3, hmk]
  refine ⟨hpa.1, ?_, ?_, hfo.1, hfo.2⟩
  · rw [hpa.2]
    simp [playUrl]
  · rw [hpa.2, List.length_map]
    exact le_trans (List.length_take_le 3 ms) (by norm_num)

/-- A stream entry whose name contains "MSNBC". -/
def msnbcEntry : Json :=
  Json.obj [("name", Json.str "US MSNBC HD"), ("stream_id", Json.num 53504)]

/-- An oracle answering stage 1 with an empty array and stage 2 with a
one-entry stream list. -/
def wNetStreams : Net := fun u =>
  if u = catUrl tAcc then .ok (.jsonText (.arr []))
  else .ok (.jsonText (.arr [msnbcEntry]))

/-- C8 witness: the single matching entry yields its interpolated link. -/
theorem msnbc_filter_play_urls_witness :
    (processAccount wNetStreams tAcc).error = none ∧
    (processAccount wNetStreams tAcc).playUrls =
      ["http://h.example/live/u1/p1/53504.ts"] := by
  have h := msnbc_filter_play_urls wNetStreams tAcc (.arr []) [msnbcEntry]
    [msnbcEntry] 0
    (by unfold wNetStreams; rw [if_pos rfl])
    rfl
    (by unfold wNetStreams; rw [if_neg (streamsUrl_ne_catUrl tAcc)])
    rfl
  refine ⟨h.1, ?_⟩
  rw [h.2.1]
  decide

/-- C9 amended: a stream entry with no `name` field is treated as not
matching rather than raising — the comprehension substitutes the empty
string and skips the entry — but the filter is not total over all lists of
JSON objects: a non-container `name` value (such as a number) raises
`TypeError`. -/
theorem missing_name_not_matching (kvs : List (String × Json))
    (entries ms : List Json)
    (h1 : lookupKey kvs "name" = none) (h2 : filterMsnbc entries = .ok ms) :
    msnbcTest (Json.obj kvs) = .ok false ∧
    filterMsnbc (Json.obj kvs :: entries) = .ok ms := by
  have ht : msnbcTest (Json.obj kvs) = .ok false := by
    simp [msnbcTest, pyGet, h1]
    rfl
  exact ⟨ht, by simp [filterMsnbc, ht, h2]⟩

/-- C9 witness: an entry carrying only a stream_id is skipped without an
exception. -/
theorem missing_name_not_matching_witness :
    msnbcTest (Json.obj [("stream_id", Json.num 5)]) = .ok false ∧
    filterMsnbc [Json.obj [("stream_id", Json.num 5)]] = .ok [] :=
  missing_name_not_matching [("stream_id", Json.num 5)] [] [] rfl rfl

/-- C9 counterexample: on a JSON object whose `name` is the number 0 the
comprehension raises `TypeError` (Python `"MSNBC" in 0`), so the filter is
not total over arbitrary lists of JSON objects. -/
theorem name_number_filter_raises :
    filterMsnbc [Json.obj [("name", Json.num 0)]] =
      .error (.typeError "argument is not iterable") := rfl
